import Mathlib

/-!
Shallow embedding of the contact-store data-access layer
(`src/database/db.py`) of a small desktop CRM.

The SQLite table `contacts` is modelled as a `Store`: a list of rows
plus the AUTOINCREMENT counter and a logical clock standing for the
`created_at DEFAULT CURRENT_TIMESTAMP` column (single-threaded callers,
timestamps taken as strictly increasing).  Each Python function of
`db.py` becomes a Lean function of the same name; `ValueError` raised by
a validator becomes `Except VErr`.  The CSV file consumed and produced
by `import_contacts_csv` / `export_contacts_csv` is modelled at the
`csv.DictReader` / `csv.DictWriter` interface level: a list of records
whose fields are `Option String` (`none` = missing key / Python `None`;
the writer renders `None` as the empty field).
-/

deriving instance DecidableEq for Except

namespace CRM

/-- Python `str.strip()` with no argument: remove leading and trailing
whitespace.  (Written on the character list so that it evaluates inside
the kernel.) -/
def pyStrip (s : String) : String :=
  (((s.toList.dropWhile Char.isWhitespace).reverse.dropWhile
      Char.isWhitespace).reverse).asString

/-- One character of `NAME_ALLOWED = ^[A-Za-zА-Яа-яЁё\-' ]+$`:
Latin letters, Cyrillic А-Я (U+0410–U+042F) and а-я (U+0430–U+044F),
Ё (U+0401), ё (U+0451), hyphen, apostrophe, space. -/
def nameAllowedChar (c : Char) : Bool :=
  c.isAlpha
    || (0x410 ≤ c.toNat && c.toNat ≤ 0x44F)
    || c.toNat == 0x401 || c.toNat == 0x451
    || c == '-' || c == Char.ofNat 39 || c == ' '

/-- Python `NAME_ALLOWED.fullmatch s`: the `+` quantifier needs a nonempty string. -/
def nameMatches (s : String) : Bool :=
  !s.isEmpty && s.toList.all nameAllowedChar

/-- One character of `PHONE_ALLOWED = ^[0-9+()\- ]+$`. -/
def phoneAllowedChar (c : Char) : Bool :=
  c.isDigit || c == '+' || c == '(' || c == ')' || c == '-' || c == ' '

/-- Python `PHONE_ALLOWED.fullmatch s`. -/
def phoneMatches (s : String) : Bool :=
  !s.isEmpty && s.toList.all phoneAllowedChar

/-- The three `ValueError`s of the validators, one per offending field. -/
inductive VErr where
  | badName
  | badEmail
  | badPhone
deriving Repr, DecidableEq

/-- Predicate: `validate_name_or_raise` passes: `not (not name or not
NAME_ALLOWED.fullmatch(name.strip()))`. -/
def name_ok (name : String) : Bool :=
  !name.isEmpty && nameMatches (pyStrip name)

/-- Predicate: `validate_email_or_raise` passes: empty/None is fine, otherwise the
stripped value must contain `@` and not start or end with it
(`startswith('@')` / `endswith('@')` test the first / last character). -/
def email_ok (email : Option String) : Bool :=
  match email with
  | none => true
  | some e =>
    if e.isEmpty then true
    else
      let a := (pyStrip e).toList
      a.contains '@' && !(a.head? == some '@') && !(a.getLast? == some '@')

/-- Predicate: `validate_phone_or_raise` passes: falsy phone is fine, otherwise it
must fullmatch `PHONE_ALLOWED`. -/
def phone_ok (phone : Option String) : Bool :=
  match phone with
  | none => true
  | some p => p.isEmpty || phoneMatches p

def validate_name_or_raise (name : String) : Except VErr Unit :=
  if name_ok name then .ok () else .error .badName

def validate_email_or_raise (email : Option String) : Except VErr Unit :=
  if email_ok email then .ok () else .error .badEmail

def validate_phone_or_raise (phone : Option String) : Except VErr Unit :=
  if phone_ok phone then .ok () else .error .badPhone

/-- A character kept by `re.sub('[^\d+]', '', ...)`: a digit or `+`.
(`\d` is the decimal-digit class; the inputs reaching it here are
ASCII.) -/
def keptPhoneChar (c : Char) : Bool :=
  c.isDigit || c == '+'

/-- Python `normalize_phone`: drop every character of `source_phone or ''`
that is neither a digit nor `+`. -/
def normalize_phone (source_phone : Option String) : String :=
  (((source_phone.getD "").toList).filter keptPhoneChar).asString

/-- One row of the `contacts` table.  `phone` is `TEXT`, nullable in the
schema, but every writer of this layer stores the (string) result of
`normalize_phone`, so it is a `String` here. -/
structure Contact where
  id : Nat
  name : String
  email : Option String
  phone : String
  company : Option String
  tags : Option String
  notes : Option String
  created_at : Nat
deriving Repr, DecidableEq

/-- The `data` dict handed to `add_contact` / `update_contact`
(`data.get('name', '')` makes a missing name the empty string; the
other fields default to `None`). -/
structure ContactData where
  name : String := ""
  email : Option String := none
  phone : Option String := none
  company : Option String := none
  tags : Option String := none
  notes : Option String := none
deriving Repr, DecidableEq

/-- The database: rows in insertion order, the AUTOINCREMENT counter,
and a logical clock for `created_at DEFAULT CURRENT_TIMESTAMP`. -/
structure Store where
  rows : List Contact
  nextId : Nat
  clock : Nat
deriving Repr, DecidableEq

/-- The state right after `init_db` on a fresh file: no rows,
AUTOINCREMENT starts at 1. -/
def emptyStore : Store := ⟨[], 1, 0⟩

/-- Python `add_contact`: validate name, email, phone in that order (a raised
`ValueError` propagates), normalize the phone, INSERT, return the fresh
id (`cur.lastrowid`). -/
def add_contact (data : ContactData) (s : Store) : Except VErr (Store × Nat) :=
  match validate_name_or_raise data.name with
  | .error e => .error e
  | .ok () =>
    match validate_email_or_raise data.email with
    | .error e => .error e
    | .ok () =>
      match validate_phone_or_raise data.phone with
      | .error e => .error e
      | .ok () =>
        let phone := normalize_phone data.phone
        let c : Contact :=
          { id := s.nextId, name := data.name, email := data.email,
            phone := phone, company := data.company, tags := data.tags,
            notes := data.notes, created_at := s.clock }
        .ok ({ rows := s.rows ++ [c], nextId := s.nextId + 1,
               clock := s.clock + 1 },
             s.nextId)

/-- A caller's view of `add_contact` on the database file: on a raised
`ValueError` nothing was written, so the store is unchanged. -/
def try_add (data : ContactData) (s : Store) : Store × Option Nat :=
  match add_contact data s with
  | .ok (s', i) => (s', some i)
  | .error _ => (s, none)

/-- Python `update_contact`: same validation pipeline, then
`UPDATE contacts SET ... WHERE id=?` (touches no row when the id is
absent; `id` and `created_at` are not in the SET list). -/
def update_contact (contact_id : Nat) (data : ContactData) (s : Store) :
    Except VErr Store :=
  match validate_name_or_raise data.name with
  | .error e => .error e
  | .ok () =>
    match validate_email_or_raise data.email with
    | .error e => .error e
    | .ok () =>
      match validate_phone_or_raise data.phone with
      | .error e => .error e
      | .ok () =>
        let phone := normalize_phone data.phone
        .ok { s with
          rows := s.rows.map fun c =>
            if c.id == contact_id then
              { c with name := data.name, email := data.email, phone := phone,
                       company := data.company, tags := data.tags,
                       notes := data.notes }
            else c }

/-- A caller's view of `update_contact` on the database file. -/
def try_update (contact_id : Nat) (data : ContactData) (s : Store) : Store :=
  match update_contact contact_id data s with
  | .ok s' => s'
  | .error _ => s

/-- SQLite `LIKE` matching of a pattern against a string: `%` matches
any run of characters (the rest of the pattern must match some suffix),
`_` matches one character, and ordinary characters compare
case-insensitively on ASCII (SQLite's default `LIKE` folds only A–Z). -/
def likeMatch : List Char → List Char → Bool
  | [], s => s.isEmpty
  | p :: ps, s =>
    if p == '%' then s.tails.any fun t => likeMatch ps t
    else if p == '_' then
      match s with
      | [] => false
      | _ :: cs => likeMatch ps cs
    else
      match s with
      | [] => false
      | c :: cs => (p.toLower == c.toLower) && likeMatch ps cs

def sqlLike (pattern s : String) : Bool :=
  likeMatch pattern.toList s.toList

/-- Evaluation of `column LIKE pattern` in a WHERE clause: a NULL column yields NULL,
which does not satisfy the clause. -/
def colLike (pattern : String) : Option String → Bool
  | none => false
  | some v => sqlLike pattern v

/-- The WHERE clause of `list_contacts`:
`name LIKE ? OR email LIKE ? OR phone LIKE ? OR company LIKE ? OR tags
LIKE ?` with every `?` bound to `'%' + substring + '%'`. -/
def matchesFilter (substring_search : String) (c : Contact) : Bool :=
  let like := "%" ++ substring_search ++ "%"
  sqlLike like c.name || colLike like c.email || sqlLike like c.phone
    || colLike like c.company || colLike like c.tags

/-- The comparison behind `ORDER BY created_at DESC`. -/
def createdDesc (a b : Contact) : Prop :=
  b.created_at ≤ a.created_at

instance : DecidableRel createdDesc :=
  fun a b => Nat.decLe b.created_at a.created_at

instance : IsTotal Contact createdDesc :=
  ⟨fun a b => Nat.le_total b.created_at a.created_at⟩

instance : IsTrans Contact createdDesc :=
  ⟨fun _ _ _ h1 h2 => Nat.le_trans h2 h1⟩

/-- Python `list_contacts`: `SELECT * FROM contacts` with the substring WHERE
clause added when `substring_search` is truthy, then
`ORDER BY created_at DESC`. -/
def list_contacts (s : Store) (substring_search : String := "") : List Contact :=
  let selected :=
    if substring_search.isEmpty then s.rows
    else s.rows.filter (matchesFilter substring_search)
  selected.insertionSort createdDesc

/-- One record of the CSV file, at the `csv` module's dict interface:
`none` is a missing key (`DictReader` gives `None`); `DictWriter`
renders `None` as an empty field. -/
structure CsvRow where
  name : Option String := none
  email : Option String := none
  phone : Option String := none
  company : Option String := none
  tags : Option String := none
  notes : Option String := none
deriving Repr, DecidableEq

/-- The CSV record `writer.writerow` emits for one contact: each field
is `row.get(key, '')`, and the writer renders a SQL NULL (`None`) as an
empty field. -/
def exportRow (c : Contact) : CsvRow :=
  { name := some c.name, email := some (c.email.getD ""),
    phone := some c.phone, company := some (c.company.getD ""),
    tags := some (c.tags.getD ""), notes := some (c.notes.getD "") }

/-- Python `export_contacts_csv`: write `list_contacts('')` under the fixed
header.  The Python function's return value is the length of this
list. -/
def export_contacts_csv (s : Store) : List CsvRow :=
  (list_contacts s "").map exportRow

/-- The `data` dict built for one CSV row:
`(row.get(key) or '').strip()` for every field. -/
def rowToData (row : CsvRow) : ContactData :=
  { name := pyStrip (row.name.getD ""),
    email := some (pyStrip (row.email.getD "")),
    phone := some (pyStrip (row.phone.getD "")),
    company := some (pyStrip (row.company.getD "")),
    tags := some (pyStrip (row.tags.getD "")),
    notes := some (pyStrip (row.notes.getD "")) }

/-- The dict actually passed to `add_contact` for a non-skipped row:
`data['phone'] = normalize_phone(data.get('phone'))`. -/
def importData (row : CsvRow) : ContactData :=
  { rowToData row with phone := some (normalize_phone (rowToData row).phone) }

/-- The loop of `import_contacts_csv`, with explicit database state and
the `added` accumulator.  A raised `ValueError` propagates out of the
loop: the result keeps the state written so far and reports the error. -/
def import_rows : List CsvRow → Store → Nat → Store × Except VErr Nat
  | [], s, added => (s, .ok added)
  | row :: rest, s, added =>
    let data := rowToData row
    if data.name.isEmpty then import_rows rest s added
    else
      match validate_name_or_raise data.name with
      | .error e => (s, .error e)
      | .ok () =>
        match validate_email_or_raise data.email with
        | .error e => (s, .error e)
        | .ok () =>
          match validate_phone_or_raise data.phone with
          | .error e => (s, .error e)
          | .ok () =>
            match add_contact (importData row) s with
            | .error e => (s, .error e)
            | .ok (s', _) => import_rows rest s' (added + 1)

/-- Python `import_contacts_csv`: run the loop over the parsed rows, starting
from `added = 0`. -/
def import_contacts_csv (rows : List CsvRow) (s : Store) :
    Store × Except VErr Nat :=
  import_rows rows s 0

/-- Python `delete_contacts`: early return 0 on an empty id list, otherwise one
`DELETE ... WHERE id IN (...)`; `cur.rowcount` is the number of rows
removed. -/
def delete_contacts (contact_ids : List Nat) (s : Store) : Store × Nat :=
  if contact_ids.isEmpty then (s, 0)
  else
    ({ s with rows := s.rows.filter fun c => !contact_ids.contains c.id },
     (s.rows.filter fun c => contact_ids.contains c.id).length)

/-- The stored-phone shape the specification promises: only digits,
with at most one `+`, and only in leading position.  (This follows the
spec's wording, to be compared with what the code stores.) -/
def specNormalizedPhone (p : String) : Bool :=
  match p.toList with
  | [] => true
  | c :: rest => (c.isDigit || c == '+') && rest.all Char.isDigit

/-- Whether `sub` occurs verbatim (contiguously) inside `s`, compared
case-insensitively with the underlying matcher's ASCII folding — the
spec hedges "case-sensitivity per underlying matcher", and its own
example (filter `"acme"` finds company `"Acme Corp"`) fixes the
case-insensitive reading. -/
def occursIn (sub s : String) : Bool :=
  (s.toList.map Char.toLower).tails.any fun t =>
    (sub.toList.map Char.toLower).isPrefixOf t

/-- The spec's phrase "the filter substring appears in at least one of
the fields name, email, phone, company, tags", read as verbatim
substring occurrence under the matcher's case folding.  (Spec wording,
to be compared with the code's `LIKE`-based filter.) -/
def specFieldOccurs (sub : String) (c : Contact) : Bool :=
  occursIn sub c.name || occursIn sub (c.email.getD "")
    || occursIn sub c.phone || occursIn sub (c.company.getD "")
    || occursIn sub (c.tags.getD "")

/-- One CSV row is skipped by the import loop when its name is empty
after trimming. -/
def row_skipped (row : CsvRow) : Bool :=
  (rowToData row).name.isEmpty

/-- The first validation error the import loop raises for one
non-skipped CSV row (`none` when the row passes, or is skipped). -/
def row_err (row : CsvRow) : Option VErr :=
  if (rowToData row).name.isEmpty then none
  else if !name_ok (rowToData row).name then some .badName
  else if !email_ok (rowToData row).email then some .badEmail
  else if !phone_ok (rowToData row).phone then some .badPhone
  else none

/-- The row raises no validation error. -/
def row_clean (row : CsvRow) : Bool :=
  (row_err row).isNone

/-- The contact the import loop INSERTs for one clean, non-skipped CSV
row, given the store state it is inserted into. -/
def importedContact (row : CsvRow) (s : Store) : Contact :=
  { id := s.nextId, name := (rowToData row).name,
    email := (rowToData row).email,
    phone := normalize_phone (rowToData row).phone,
    company := (rowToData row).company, tags := (rowToData row).tags,
    notes := (rowToData row).notes, created_at := s.clock }

/-- The part of a contact that the CSV file carries: everything except
`id` and `created_at`. -/
structure ContactTuple where
  name : String
  email : Option String
  phone : String
  company : Option String
  tags : Option String
  notes : Option String
deriving Repr, DecidableEq

def projTuple (c : Contact) : ContactTuple :=
  ⟨c.name, c.email, c.phone, c.company, c.tags, c.notes⟩

/-- The CSV-visible tuple of the contact created for one imported row
(independent of the store state it lands in). -/
def importedTuple (row : CsvRow) : ContactTuple :=
  ⟨(rowToData row).name, (rowToData row).email,
   normalize_phone (rowToData row).phone, (rowToData row).company,
   (rowToData row).tags, (rowToData row).notes⟩

/-- The tuple a stored contact reappears as after export-then-import:
missing optional fields were rendered as empty fields, every field was
trimmed by the importer, and the phone passed through `normalize_phone`
again. -/
def roundtripTuple (c : Contact) : ContactTuple :=
  ⟨pyStrip c.name, some (pyStrip (c.email.getD "")),
   normalize_phone (some (pyStrip c.phone)),
   some (pyStrip (c.company.getD "")), some (pyStrip (c.tags.getD "")),
   some (pyStrip (c.notes.getD ""))⟩

/-- A two-row store used to instantiate theorems: "Ann" (id 1), then
"Bob" (id 2). -/
def sTwo : Store :=
  (try_add { name := "Bob" } (try_add { name := "Ann" } emptyStore).1).1

/-- A one-row store whose contact has company "Acme Corp". -/
def sAcme : Store :=
  (try_add { name := "Bob", company := some "Acme Corp" } emptyStore).1

/-- A one-row store: just "Ann", every optional field NULL. -/
def sAnn : Store := (try_add { name := "Ann" } emptyStore).1

/-! ### Helper lemmas -/

theorem toList_asString (l : List Char) : l.asString.toList = l := rfl

theorem filter_keptPhoneChar_idem (l : List Char) :
    (l.filter keptPhoneChar).filter keptPhoneChar = l.filter keptPhoneChar := by
  induction l with
  | nil => rfl
  | cons c cs ih =>
    by_cases h : keptPhoneChar c = true <;> simp [List.filter_cons, h, ih]

/-- Idempotence: `normalize_phone` only deletes characters it would keep again. -/
theorem normalize_phone_idem (x : Option String) :
    normalize_phone (some (normalize_phone x)) = normalize_phone x := by
  unfold normalize_phone
  simp only [Option.getD_some, toList_asString, filter_keptPhoneChar_idem]

theorem phoneAllowedChar_of_kept {c : Char} (h : keptPhoneChar c = true) :
    phoneAllowedChar c = true := by
  simp only [keptPhoneChar, Bool.or_eq_true] at h
  simp only [phoneAllowedChar, Bool.or_eq_true]
  tauto

/-- The output of `normalize_phone` always passes phone validation. -/
theorem phone_ok_normalize (x : Option String) :
    phone_ok (some (normalize_phone x)) = true := by
  unfold phone_ok
  cases hni : (normalize_phone x).isEmpty with
  | true => simp [hni]
  | false =>
    simp only [hni, Bool.false_or, phoneMatches, Bool.not_false, Bool.true_and]
    rw [List.all_eq_true]
    intro c hc
    unfold normalize_phone at hc
    rw [toList_asString, List.mem_filter] at hc
    exact phoneAllowedChar_of_kept hc.2

/-- Extracting the validator verdicts from a clean, non-skipped row. -/
theorem row_err_none (row : CsvRow) (hns : row_skipped row = false)
    (hc : row_err row = none) :
    name_ok (rowToData row).name = true ∧
    email_ok (rowToData row).email = true ∧
    phone_ok (rowToData row).phone = true := by
  unfold row_skipped at hns
  unfold row_err at hc
  rw [hns] at hc
  simp only [Bool.false_eq_true, if_false] at hc
  cases h1 : name_ok (rowToData row).name with
  | false => rw [h1] at hc; simp at hc
  | true =>
    rw [h1] at hc
    cases h2 : email_ok (rowToData row).email with
    | false => rw [h2] at hc; simp at hc
    | true =>
      rw [h2] at hc
      cases h3 : phone_ok (rowToData row).phone with
      | false => rw [h3] at hc; simp at hc
      | true => exact ⟨rfl, rfl, rfl⟩

/-- For a clean, non-skipped row, the inner `add_contact` call cannot
fail: its validators see the very values the import loop just
validated (and a freshly normalized phone). -/
theorem add_import_ok (row : CsvRow) (s : Store)
    (hns : row_skipped row = false) (hc : row_err row = none) :
    add_contact (importData row) s =
      .ok ({ rows := s.rows ++ [importedContact row s],
             nextId := s.nextId + 1, clock := s.clock + 1 }, s.nextId) := by
  obtain ⟨hn, he, hp⟩ := row_err_none row hns hc
  simp [add_contact, validate_name_or_raise, validate_email_or_raise,
        validate_phone_or_raise, importData, hn, he, hp,
        phone_ok_normalize, importedContact, normalize_phone_idem]

/-- Import step: a row whose trimmed name is empty is skipped. -/
theorem import_rows_cons_skip (row : CsvRow) (rest : List CsvRow) (s : Store)
    (a : Nat) (hs : row_skipped row = true) :
    import_rows (row :: rest) s a = import_rows rest s a := by
  have h : (rowToData row).name.isEmpty = true := hs
  simp [import_rows, h]

/-- Import step: a clean, non-skipped row is validated, inserted, and
counted. -/
theorem import_rows_cons_clean (row : CsvRow) (rest : List CsvRow) (s : Store)
    (a : Nat) (hns : row_skipped row = false) (hc : row_err row = none) :
    import_rows (row :: rest) s a =
      import_rows rest
        { rows := s.rows ++ [importedContact row s], nextId := s.nextId + 1,
          clock := s.clock + 1 } (a + 1) := by
  obtain ⟨hn, he, hp⟩ := row_err_none row hns hc
  have hns' : (rowToData row).name.isEmpty = false := hns
  simp [import_rows, hns', validate_name_or_raise, validate_email_or_raise,
        validate_phone_or_raise, hn, he, hp, add_import_ok row s hns hc]

/-- Import step: a row with a validation error aborts the loop, handing
back the store as written so far and the first error of that row. -/
theorem import_rows_cons_err (row : CsvRow) (rest : List CsvRow) (s : Store)
    (a : Nat) (e : VErr) (hbad : row_err row = some e) :
    import_rows (row :: rest) s a = (s, .error e) := by
  have hns : (rowToData row).name.isEmpty = false := by
    cases h : (rowToData row).name.isEmpty with
    | false => rfl
    | true =>
      have : row_err row = none := by simp [row_err, h]
      rw [this] at hbad; cases hbad
  unfold row_err at hbad
  rw [hns] at hbad
  simp only [Bool.false_eq_true, if_false] at hbad
  cases h1 : name_ok (rowToData row).name with
  | false =>
    rw [h1] at hbad
    simp only [Bool.not_false, if_true, Option.some.injEq] at hbad
    simp [import_rows, hns, validate_name_or_raise, h1, ← hbad]
  | true =>
    rw [h1] at hbad
    cases h2 : email_ok (rowToData row).email with
    | false =>
      rw [h2] at hbad
      simp only [Bool.not_true, Bool.not_false, Bool.false_eq_true, if_false,
                 if_true, Option.some.injEq] at hbad
      simp [import_rows, hns, validate_name_or_raise, validate_email_or_raise,
            h1, h2, ← hbad]
    | true =>
      rw [h2] at hbad
      cases h3 : phone_ok (rowToData row).phone with
      | false =>
        rw [h3] at hbad
        simp only [Bool.not_true, Bool.not_false, Bool.false_eq_true, if_false,
                   if_true, Option.some.injEq] at hbad
        simp [import_rows, hns, validate_name_or_raise,
              validate_email_or_raise, validate_phone_or_raise, h1, h2, h3,
              ← hbad]
      | true => rw [h3] at hbad; simp at hbad

/-- Running the loop over clean rows reports the number of non-skipped
rows on top of the incoming accumulator. -/
theorem import_rows_clean_run (rows : List CsvRow) :
    ∀ (s : Store) (a : Nat), (∀ r ∈ rows, row_clean r = true) →
      (import_rows rows s a).2 =
        .ok (a + rows.countP fun r => !row_skipped r) := by
  induction rows with
  | nil => intro s a _; simp [import_rows]
  | cons r t ih =>
    intro s a hclean
    have hr : row_clean r = true := hclean r (List.mem_cons_self r t)
    have ht : ∀ x ∈ t, row_clean x = true :=
      fun x hx => hclean x (List.mem_cons_of_mem r hx)
    cases hskip : row_skipped r with
    | true =>
      rw [import_rows_cons_skip r t s a hskip, ih s a ht]
      congr 1
      simp [List.countP_cons, hskip]
    | false =>
      have hcnone : row_err r = none := by
        unfold row_clean at hr
        exact Option.isNone_iff_eq_none.mp hr
      rw [import_rows_cons_clean r t s a hskip hcnone, ih _ (a + 1) ht]
      congr 1
      simp only [List.countP_cons, hskip, Bool.not_false, if_true]
      omega

/-- A clean prefix of the row list is consumed first, leaving the loop
on the remaining rows with the store and accumulator advanced. -/
theorem import_rows_clean_append (l : List CsvRow) (pre : List CsvRow) :
    ∀ (s : Store) (a : Nat), (∀ r ∈ pre, row_clean r = true) →
      import_rows (pre ++ l) s a =
        import_rows l (import_rows pre s a).1
          (a + pre.countP fun r => !row_skipped r) := by
  induction pre with
  | nil => intro s a _; simp [import_rows]
  | cons r t ih =>
    intro s a hclean
    have hr : row_clean r = true := hclean r (List.mem_cons_self r t)
    have ht : ∀ x ∈ t, row_clean x = true :=
      fun x hx => hclean x (List.mem_cons_of_mem r hx)
    cases hskip : row_skipped r with
    | true =>
      have hc2 : (a + List.countP (fun x => !row_skipped x) (r :: t)) =
          a + List.countP (fun x => !row_skipped x) t := by
        rw [List.countP_cons_of_neg]
        simp [hskip]
      rw [List.cons_append, import_rows_cons_skip r (t ++ l) s a hskip,
          import_rows_cons_skip r t s a hskip, ih s a ht, hc2]
    | false =>
      have hcnone : row_err r = none := by
        unfold row_clean at hr
        exact Option.isNone_iff_eq_none.mp hr
      have hc2 : (a + List.countP (fun x => !row_skipped x) (r :: t)) =
          (a + 1) + List.countP (fun x => !row_skipped x) t := by
        rw [List.countP_cons_of_pos]
        · omega
        · simp [hskip]
      rw [List.cons_append, import_rows_cons_clean r (t ++ l) s a hskip hcnone,
          import_rows_cons_clean r t s a hskip hcnone, ih _ (a + 1) ht, hc2]

/-- Shape lemma: `add_contact` can only succeed with the one-row extension it is
written to produce. -/
theorem add_contact_ok_shape (d : ContactData) (s : Store) (out : Store × Nat)
    (h : add_contact d s = .ok out) :
    out = ({ rows := s.rows ++
               [{ id := s.nextId, name := d.name, email := d.email,
                  phone := normalize_phone d.phone, company := d.company,
                  tags := d.tags, notes := d.notes, created_at := s.clock }],
             nextId := s.nextId + 1, clock := s.clock + 1 }, s.nextId) := by
  cases h1 : name_ok d.name with
  | false => simp [add_contact, validate_name_or_raise, h1] at h
  | true =>
    cases h2 : email_ok d.email with
    | false =>
      simp [add_contact, validate_name_or_raise, validate_email_or_raise,
            h1, h2] at h
    | true =>
      cases h3 : phone_ok d.phone with
      | false =>
        simp [add_contact, validate_name_or_raise, validate_email_or_raise,
              validate_phone_or_raise, h1, h2, h3] at h
      | true =>
        simp [add_contact, validate_name_or_raise, validate_email_or_raise,
              validate_phone_or_raise, h1, h2, h3] at h
        exact h.symm

/-- The import loop only ever appends rows to the table. -/
theorem import_rows_extend (rows : List CsvRow) :
    ∀ (s : Store) (a : Nat), ∃ t, (import_rows rows s a).1.rows = s.rows ++ t := by
  induction rows with
  | nil => intro s a; exact ⟨[], by simp [import_rows]⟩
  | cons r l ih =>
    intro s a
    show ∃ t, (import_rows (r :: l) s a).1.rows = s.rows ++ t
    unfold import_rows
    by_cases hskip : (rowToData r).name.isEmpty = true
    · simp only [hskip, if_true]
      exact ih s a
    · rw [Bool.not_eq_true] at hskip
      simp only [hskip, Bool.false_eq_true, if_false]
      cases hv1 : validate_name_or_raise (rowToData r).name with
      | error e => exact ⟨[], by simp⟩
      | ok u =>
        cases u
        cases hv2 : validate_email_or_raise (rowToData r).email with
        | error e => exact ⟨[], by simp⟩
        | ok u =>
          cases u
          cases hv3 : validate_phone_or_raise (rowToData r).phone with
          | error e => exact ⟨[], by simp⟩
          | ok u =>
            cases u
            cases hadd : add_contact (importData r) s with
            | error e => exact ⟨[], by simp⟩
            | ok out =>
              obtain ⟨s', n⟩ := out
              have hshape := add_contact_ok_shape _ _ _ hadd
              have hrows : s'.rows = s.rows ++
                  [{ id := s.nextId, name := (importData r).name,
                     email := (importData r).email,
                     phone := normalize_phone (importData r).phone,
                     company := (importData r).company,
                     tags := (importData r).tags,
                     notes := (importData r).notes, created_at := s.clock }] := by
                have := congrArg (fun p => (Prod.fst p).rows) hshape
                simpa using this
              obtain ⟨t, htail⟩ := ih s' (a + 1)
              refine ⟨{ id := s.nextId, name := (importData r).name,
                        email := (importData r).email,
                        phone := normalize_phone (importData r).phone,
                        company := (importData r).company,
                        tags := (importData r).tags,
                        notes := (importData r).notes,
                        created_at := s.clock } :: t, ?_⟩
              show (import_rows l s' (a + 1)).1.rows = s.rows ++ _
              rw [htail, hrows, List.append_assoc]
              rfl

/-- Importing clean, non-skipped rows appends, in order, one contact
per row, whose CSV-visible tuple is `importedTuple`. -/
theorem import_rows_tuples (rs : List CsvRow) :
    ∀ (s0 : Store) (a : Nat),
      (∀ r ∈ rs, row_skipped r = false ∧ row_err r = none) →
      (import_rows rs s0 a).1.rows.map projTuple =
        s0.rows.map projTuple ++ rs.map importedTuple := by
  induction rs with
  | nil => intro s0 a _; simp [import_rows]
  | cons r t ih =>
    intro s0 a hc
    obtain ⟨hns, hcr⟩ := hc r (List.mem_cons_self r t)
    rw [import_rows_cons_clean r t s0 a hns hcr,
        ih _ (a + 1) fun x hx => hc x (List.mem_cons_of_mem r hx)]
    show (s0.rows ++ [importedContact r s0]).map projTuple ++
        t.map importedTuple = _
    rw [List.map_append, List.append_assoc]
    rfl

/-! ### Claims -/

/-- C9: phone normalization is idempotent — applying `normalize_phone`
to its own output returns that output unchanged, so re-importing or
re-saving an already-stored phone never changes it. -/
theorem C9_normalize_phone_idempotent (x : Option String) :
    normalize_phone (some (normalize_phone x)) = normalize_phone x :=
  normalize_phone_idem x

/-- C1 (code behavior at the failing input): the phone `"7+7"` lies in
the allowed input character class, yet `normalize_phone` keeps the
interior `+` (`re.sub` deletes only characters that are neither digits
nor `+`), so add-then-list returns the stored phone `"7+7"`, which is
not of the digits-with-at-most-one-leading-`+` shape that the
specification (and `normalize_phone`'s own docstring) promises. -/
theorem C1_interior_plus_reaches_store :
    phoneMatches "7+7" = true ∧
    normalize_phone (some "7+7") = "7+7" ∧
    (try_add { name := "Ann", phone := some "7+7" } emptyStore).2 = some 1 ∧
    ((list_contacts (try_add { name := "Ann", phone := some "7+7" } emptyStore).1 "").map
      fun c => c.phone) = ["7+7"] ∧
    specNormalizedPhone "7+7" = false := by
  decide

/-- C3: whenever some validation rule is violated, `add_contact` raises
the validation error of the first violated rule in the fixed order
name, email, phone, and the store is left unchanged (no row written,
row count unaffected). -/
theorem C3_add_first_violated_rule (d : ContactData) (s : Store)
    (h : ¬(name_ok d.name = true ∧ email_ok d.email = true ∧
           phone_ok d.phone = true)) :
    try_add d s = (s, none) ∧
    (name_ok d.name = false → add_contact d s = .error .badName) ∧
    (name_ok d.name = true → email_ok d.email = false →
      add_contact d s = .error .badEmail) ∧
    (name_ok d.name = true → email_ok d.email = true →
      phone_ok d.phone = false → add_contact d s = .error .badPhone) := by
  cases hn : name_ok d.name with
  | false =>
    have herr : add_contact d s = .error .badName := by
      simp [add_contact, validate_name_or_raise, hn]
    refine ⟨by simp [try_add, herr], fun _ => herr, ?_, ?_⟩
    · intro hnt _; exact Bool.noConfusion hnt
    · intro hnt _ _; exact Bool.noConfusion hnt
  | true =>
    cases he : email_ok d.email with
    | false =>
      have herr : add_contact d s = .error .badEmail := by
        simp [add_contact, validate_name_or_raise, validate_email_or_raise, hn, he]
      refine ⟨by simp [try_add, herr], ?_, fun _ _ => herr, ?_⟩
      · intro hnf; exact Bool.noConfusion hnf
      · intro _ het _; exact Bool.noConfusion het
    | true =>
      cases hp : phone_ok d.phone with
      | false =>
        have herr : add_contact d s = .error .badPhone := by
          simp [add_contact, validate_name_or_raise, validate_email_or_raise,
                validate_phone_or_raise, hn, he, hp]
        refine ⟨by simp [try_add, herr], ?_, ?_, fun _ _ _ => herr⟩
        · intro hnf; exact Bool.noConfusion hnf
        · intro _ hef; exact Bool.noConfusion hef
      | true => exact absurd ⟨hn, he, hp⟩ h

/-- Witness for C3: the name `"Jo@hn"` violates the name rule, the add
is rejected with the name error, and the empty store stays empty. -/
theorem C3_witness :
    try_add { name := "Jo@hn" } emptyStore = (emptyStore, none) ∧
    add_contact { name := "Jo@hn" } emptyStore = .error .badName := by
  have h := C3_add_first_violated_rule { name := "Jo@hn" } emptyStore (by decide)
  exact ⟨h.1, h.2.1 (by decide)⟩

/-- C5: `delete_contacts` on an empty id list returns `(s, 0)` without
touching the database; in general it removes exactly the rows whose id
is in the list and returns how many rows it actually removed — for a
mix of existing and absent ids, the number of existing ones. -/
theorem C5_delete_contacts_count (contact_ids : List Nat) (s : Store) :
    (contact_ids = [] → delete_contacts contact_ids s = (s, 0)) ∧
    delete_contacts contact_ids s =
      ({ s with rows := s.rows.filter fun c => !contact_ids.contains c.id },
       (s.rows.filter fun c => contact_ids.contains c.id).length) := by
  constructor
  · rintro rfl; rfl
  · unfold delete_contacts
    cases hids : contact_ids.isEmpty
    · rfl
    · have : contact_ids = [] := List.isEmpty_iff.mp hids
      subst this
      simp

/-- Witness for C5: on the two-row store, the empty id list removes
nothing, and the mixed list `[1, 99]` (one existing, one absent id)
removes exactly one row. -/
theorem C5_witness :
    delete_contacts [] sTwo = (sTwo, 0) ∧
    (delete_contacts [1, 99] sTwo).2 = 1 := by
  refine ⟨(C5_delete_contacts_count [] sTwo).1 rfl, ?_⟩
  rw [(C5_delete_contacts_count [1, 99] sTwo).2]
  decide

/-- C8: for a field-set passing every validation rule and an id present
on no row, `update_contact` raises no error and returns the store with
every row unchanged. -/
theorem C8_update_absent_id_noop (contact_id : Nat) (d : ContactData) (s : Store)
    (hv : name_ok d.name = true ∧ email_ok d.email = true ∧
          phone_ok d.phone = true)
    (hid : ∀ c ∈ s.rows, c.id ≠ contact_id) :
    update_contact contact_id d s = .ok s := by
  obtain ⟨hn, he, hp⟩ := hv
  have key : ∀ rows : List Contact, (∀ c ∈ rows, c.id ≠ contact_id) →
      (rows.map fun c =>
        if c.id = contact_id then
          { c with name := d.name, email := d.email,
                   phone := normalize_phone d.phone, company := d.company,
                   tags := d.tags, notes := d.notes }
        else c) = rows := by
    intro rows hrows
    induction rows with
    | nil => rfl
    | cons a t ih =>
      have ha : a.id ≠ contact_id := hrows a (List.mem_cons_self a t)
      have ht := ih fun c hc => hrows c (List.mem_cons_of_mem a hc)
      simp only [List.map_cons, ht]
      congr 1
      rw [if_neg ha]
  simp [update_contact, validate_name_or_raise, validate_email_or_raise,
        validate_phone_or_raise, hn, he, hp, key s.rows hid]

/-- Witness for C8: updating the absent id 99 on the two-row store with
a valid field-set succeeds and changes nothing. -/
theorem C8_witness : update_contact 99 { name := "Zed" } sTwo = .ok sTwo :=
  C8_update_absent_id_noop 99 { name := "Zed" } sTwo (by decide) (by decide)

/-- C10: `update_contact` runs the full validation pipeline before
touching the store, even when no row has the given id: an invalid
field-set is rejected with a validation error (not a silent no-op) and
the database is unchanged. -/
theorem C10_update_validates_before_store (contact_id : Nat) (d : ContactData)
    (s : Store)
    (_hid : ∀ c ∈ s.rows, c.id ≠ contact_id)
    (hbad : ¬(name_ok d.name = true ∧ email_ok d.email = true ∧
              phone_ok d.phone = true)) :
    (∃ e, update_contact contact_id d s = .error e) ∧
    try_update contact_id d s = s := by
  cases hn : name_ok d.name with
  | false =>
    have herr : update_contact contact_id d s = .error .badName := by
      simp [update_contact, validate_name_or_raise, hn]
    exact ⟨⟨_, herr⟩, by simp [try_update, herr]⟩
  | true =>
    cases he : email_ok d.email with
    | false =>
      have herr : update_contact contact_id d s = .error .badEmail := by
        simp [update_contact, validate_name_or_raise, validate_email_or_raise,
              hn, he]
      exact ⟨⟨_, herr⟩, by simp [try_update, herr]⟩
    | true =>
      cases hp : phone_ok d.phone with
      | false =>
        have herr : update_contact contact_id d s = .error .badPhone := by
          simp [update_contact, validate_name_or_raise, validate_email_or_raise,
                validate_phone_or_raise, hn, he, hp]
        exact ⟨⟨_, herr⟩, by simp [try_update, herr]⟩
      | true => exact absurd ⟨hn, he, hp⟩ hbad

/-- Witness for C10: updating the absent id 99 with the invalid name
`"Jo@hn"` is rejected and the two-row store is unchanged. -/
theorem C10_witness :
    (∃ e, update_contact 99 { name := "Jo@hn" } sTwo = .error e) ∧
    try_update 99 { name := "Jo@hn" } sTwo = sTwo :=
  C10_update_validates_before_store 99 { name := "Jo@hn" } sTwo
    (by decide) (by decide)

/-- C4 (counterexample to the claim as stated): searching the one-row
Acme store with the filter `"A_me"` returns the contact even though
`"A_me"` appears — even under the matcher's case folding — in none of
its fields.  The filter is spliced verbatim into the pattern
`'%' + filter + '%'` with no ESCAPE clause, so the `_` in the filter
acts as a one-character `LIKE` wildcard and matches the `c` of
`"Acme Corp"`: a filter can select contacts in which it never
appears. -/
theorem C4_counterexample :
    (list_contacts sAcme "A_me").length = 1 ∧
    sAcme.rows.all (fun c => !specFieldOccurs "A_me" c) = true := by
  decide

/-- C4 (amended): an empty filter returns every contact; a non-empty
filter returns exactly those contacts on which some non-NULL field
among name, email, phone, company, tags LIKE-matches `%filter%`
(SQLite `LIKE`: ASCII case-insensitive, with `%`/`_` wildcards),
OR-combined; in both cases the result is ordered by creation time
descending. -/
theorem C4_list_like_filter_sorted (s : Store) (q : String) :
    (list_contacts s q).Perm
      (if q.isEmpty then s.rows else s.rows.filter (matchesFilter q)) ∧
    (list_contacts s q).Sorted createdDesc ∧
    (∀ c, c ∈ list_contacts s q ↔
      c ∈ s.rows ∧ (q.isEmpty = false → matchesFilter q c = true)) := by
  refine ⟨List.perm_insertionSort _ _, List.sorted_insertionSort _ _, ?_⟩
  intro c
  show c ∈ List.insertionSort createdDesc
      (if q.isEmpty then s.rows else s.rows.filter (matchesFilter q)) ↔ _
  rw [List.mem_insertionSort]
  cases hq : q.isEmpty with
  | true => simp
  | false => simp [List.mem_filter]

/-- Witness for C4, instantiated at the Acme store and the filter
`"ACME"`. -/
theorem C4_amended_witness :
    (list_contacts sAcme "ACME").Perm
      (sAcme.rows.filter (matchesFilter "ACME")) ∧
    (list_contacts sAcme "ACME").Sorted createdDesc := by
  have h := C4_list_like_filter_sorted sAcme "ACME"
  exact ⟨h.1, h.2.1⟩

/-- C6: a validation failure on any row aborts the whole import with
that row's validation error, while the rows imported earlier in the
same call stay committed — the resulting store is exactly the one
produced by importing the clean prefix alone; and when no row fails,
the import returns the number of non-skipped rows added. -/
theorem C6_import_abort_keeps_prefix (pre rest rows : List CsvRow)
    (bad : CsvRow) (e : VErr) (s : Store) :
    ((∀ r ∈ pre, row_clean r = true) → row_err bad = some e →
      import_contacts_csv (pre ++ bad :: rest) s =
        ((import_contacts_csv pre s).1, .error e)) ∧
    ((∀ r ∈ rows, row_clean r = true) →
      (import_contacts_csv rows s).2 =
        .ok (rows.countP fun r => !row_skipped r)) := by
  constructor
  · intro hpre hbad
    unfold import_contacts_csv
    rw [import_rows_clean_append (bad :: rest) pre s 0 hpre,
        import_rows_cons_err bad rest _ _ e hbad]
  · intro hrows
    unfold import_contacts_csv
    rw [import_rows_clean_run rows s 0 hrows, Nat.zero_add]

/-- Witness for C6: importing `["Ann", "Jo@hn"]` aborts on the second
row with the name error, keeping the committed first row; importing
`["Ann"]` alone reports one added row. -/
theorem C6_witness :
    import_contacts_csv
        [{ name := some "Ann" }, { name := some "Jo@hn" }] emptyStore =
      ((import_contacts_csv [{ name := some "Ann" }] emptyStore).1,
       .error .badName) ∧
    (import_contacts_csv [{ name := some "Ann" }] emptyStore).2 = .ok 1 := by
  have h := C6_import_abort_keeps_prefix [{ name := some "Ann" }] []
    [{ name := some "Ann" }] { name := some "Jo@hn" } .badName emptyStore
  refine ⟨h.1 (by decide) (by decide), ?_⟩
  rw [h.2 (by decide)]
  decide

/-- C7: during import every CSV field is trimmed; a row whose name is
empty after trimming is silently skipped — the call behaves exactly as
if the row were absent (no error, no insert, no count increment) — and
a kept row is inserted with every one of its six fields trimmed (and
the phone normalized). -/
theorem C7_import_trims_and_skips (row : CsvRow) (rest : List CsvRow)
    (s : Store) :
    (row_skipped row = true →
      import_contacts_csv (row :: rest) s = import_contacts_csv rest s) ∧
    (row_skipped row = false → row_err row = none →
      ∃ t, (import_contacts_csv (row :: rest) s).1.rows =
        s.rows ++ importedContact row s :: t) ∧
    importedContact row s =
      { id := s.nextId, name := pyStrip (row.name.getD ""),
        email := some (pyStrip (row.email.getD "")),
        phone := normalize_phone (some (pyStrip (row.phone.getD ""))),
        company := some (pyStrip (row.company.getD "")),
        tags := some (pyStrip (row.tags.getD "")),
        notes := some (pyStrip (row.notes.getD "")),
        created_at := s.clock } := by
  refine ⟨?_, ?_, rfl⟩
  · intro hs
    unfold import_contacts_csv
    exact import_rows_cons_skip row rest s 0 hs
  · intro hns hc
    unfold import_contacts_csv
    rw [import_rows_cons_clean row rest s 0 hns hc]
    obtain ⟨t, ht⟩ := import_rows_extend rest _ 1
    refine ⟨t, ?_⟩
    rw [ht]
    rw [List.append_assoc]
    rfl

/-- Witness for C7: the blank-named row is skipped outright, and the
row `(" Ann ", " a@b ")` is inserted trimmed. -/
theorem C7_witness :
    import_contacts_csv [{ name := some "  " }] emptyStore =
      import_contacts_csv [] emptyStore ∧
    (∃ t, (import_contacts_csv
        [{ name := some " Ann ", email := some " a@b " }] emptyStore).1.rows =
      emptyStore.rows ++
        importedContact { name := some " Ann ", email := some " a@b " }
          emptyStore :: t) := by
  have h1 := (C7_import_trims_and_skips { name := some "  " } [] emptyStore).1
    (by decide)
  have h2 := (C7_import_trims_and_skips
    { name := some " Ann ", email := some " a@b " } [] emptyStore).2.1
    (by decide) (by decide)
  exact ⟨h1, h2⟩

/-- C2 (counterexample to the claim as stated): exporting the one-row
"Ann" store and importing the file into an empty store does not
reproduce the same multiset of (name, email, phone, company, tags,
notes) tuples — the original row has NULL email/company/tags/notes,
but the CSV writer renders NULL as an empty field and the importer
stores the (trimmed) empty string, so the reimported tuple differs. -/
theorem C2_counterexample :
    (try_add { name := "Ann" } emptyStore).2 = some 1 ∧
    ¬ (((import_contacts_csv (export_contacts_csv sAnn) emptyStore).1.rows.map
          projTuple).Perm (sAnn.rows.map projTuple)) := by
  decide

/-- C2 (amended): provided every stored row still passes import
validation (true of any row `add_contact` accepts), export followed
by import into an empty store succeeds, reports one added row per
stored contact, and reproduces — as a multiset, id/created_at ignored — the
stored tuples after rendering missing optional fields as empty strings,
trimming every field and re-normalizing the phone.  The untransformed
original multiset is not reproduced in general. -/
theorem C2_roundtrip_trimmed (s : Store)
    (h : ∀ c ∈ s.rows, row_skipped (exportRow c) = false ∧
         row_err (exportRow c) = none) :
    (import_contacts_csv (export_contacts_csv s) emptyStore).2 =
      .ok s.rows.length ∧
    ((import_contacts_csv (export_contacts_csv s) emptyStore).1.rows.map
        projTuple).Perm (s.rows.map roundtripTuple) := by
  have hperm : (list_contacts s "").Perm s.rows := List.perm_insertionSort _ _
  have hmem : ∀ r ∈ (list_contacts s "").map exportRow,
      row_skipped r = false ∧ row_err r = none := by
    intro r hr
    obtain ⟨c, hc, rfl⟩ := List.mem_map.mp hr
    exact h c (hperm.mem_iff.mp hc)
  constructor
  · unfold import_contacts_csv export_contacts_csv
    rw [import_rows_clean_run _ emptyStore 0 fun r hr => by
      unfold row_clean; rw [(hmem r hr).2]; rfl]
    have hall : ∀ r ∈ (list_contacts s "").map exportRow,
        (!row_skipped r) = true := fun r hr => by rw [(hmem r hr).1]; rfl
    rw [List.countP_eq_length.mpr hall, List.length_map, hperm.length_eq,
        Nat.zero_add]
  · unfold import_contacts_csv export_contacts_csv
    rw [import_rows_tuples _ emptyStore 0 hmem]
    show (((list_contacts s "").map exportRow).map importedTuple).Perm
      (s.rows.map roundtripTuple)
    rw [List.map_map]
    have hfun : (importedTuple ∘ exportRow) = roundtripTuple := rfl
    rw [hfun]
    exact hperm.map roundtripTuple

/-- Witness for C2 at the two-row store ("Ann", "Bob"): the round trip
reports two added rows and reproduces the (here already trimmed,
NULL-free after rendering) tuples. -/
theorem C2_witness :
    (import_contacts_csv (export_contacts_csv sTwo) emptyStore).2 = .ok 2 ∧
    ((import_contacts_csv (export_contacts_csv sTwo) emptyStore).1.rows.map
        projTuple).Perm (sTwo.rows.map roundtripTuple) := by
  have h := C2_roundtrip_trimmed sTwo (by decide)
  refine ⟨?_, h.2⟩
  rw [h.1]
  decide

end CRM
